import Mathlib

/-!
Verification development for the data-api-quickstart repository: a shallow
embedding of the movie-manager client (TanStack Query cache, mutation
lifecycle, application shell state machine, search component, and the
denotation of the GraphQL operation catalog), with theorems settling the
frozen claims about the specification.
-/

/-- Person entity, from `src/types/movie.ts`: `name` plus optional `born`. -/
structure Person where
  name : String
  born : Option Int
deriving Repr, DecidableEq

/-- Movie entity, from `src/types/movie.ts`: `title`, `released`, optional
`tagline`, and the relationship-derived people lists. -/
structure Movie where
  title : String
  released : Int
  tagline : Option String
  peopleActedIn : List Person
  peopleDirected : List Person
deriving Repr, DecidableEq

/-- A TanStack Query cache key, e.g. `[ "movies" ]` or `[ "search", term ]`. -/
abbrev QueryKey := List String

/-- The payloads the client caches: the movies response shape
`\x7b movies: Movie[] \x7d` (used by the list and search queries) and the people
response shape `\x7b people: Person[] \x7d`. -/
inductive CacheData where
  | moviesData (ms : List Movie)
  | peopleData (ps : List Person)
deriving Repr, DecidableEq

/-- One cache entry: its data plus whether it has been marked invalidated
(stale), so the next read refetches. -/
structure CacheEntry where
  data : CacheData
  invalidated : Bool
deriving Repr, DecidableEq

/-- The query cache: an association list from keys to entries. -/
abbrev Cache := List (QueryKey × CacheEntry)

/-- First entry stored under a key, if any. -/
def lookupEntry : Cache → QueryKey → Option CacheEntry
  | [], _ => none
  | e :: rest, k => if e.1 = k then some e.2 else lookupEntry rest k

/-- Embeds `queryClient.getQueryData(key)`. -/
def getQueryData (k : QueryKey) (c : Cache) : Option CacheData :=
  (lookupEntry c k).map CacheEntry.data

/-- Embeds `queryClient.setQueryData(key, value)` with a direct value:
replaces the data stored under the key (creating the entry when absent). -/
def setQueryData (k : QueryKey) (d : CacheData) : Cache → Cache
  | [] => [(k, ⟨d, false⟩)]
  | e :: rest =>
      if e.1 = k then (e.1, ⟨d, e.2.invalidated⟩) :: rest
      else e :: setQueryData k d rest

/-- Embeds `queryClient.setQueryData(key, updater)` with a functional
updater: rewrites the data under the key when the entry is present. -/
def setQueryDataFn (k : QueryKey) (f : CacheData → CacheData) : Cache → Cache
  | [] => []
  | e :: rest =>
      if e.1 = k then (e.1, ⟨f e.2.data, e.2.invalidated⟩) :: rest
      else e :: setQueryDataFn k f rest

/-- Embeds `queryClient.invalidateQueries(\x7b queryKey \x7d)`: marks every entry
whose key extends the filter key as invalidated (TanStack Query matches
keys hierarchically). Data is untouched; only the staleness mark changes. -/
def invalidateQueries (fk : QueryKey) : Cache → Cache
  | [] => []
  | e :: rest =>
      (if List.isPrefixOf fk e.1 then (e.1, ⟨e.2.data, true⟩) else e)
        :: invalidateQueries fk rest

/-- Embeds `queryClient.cancelQueries`: aborts in-flight fetches for the key;
it does not change any cached data, so on the cache itself it is the
identity. -/
def cancelQueries (_fk : QueryKey) (c : Cache) : Cache := c

/-- The `[ "movies" ]` key used by the list query and every mutation. -/
def moviesKey : QueryKey := ["movies"]

/-- The `[ "search", term ]` key used by the search query. -/
def searchKey (term : String) : QueryKey := ["search", term]

/-- The `[ "people" ]` key used by the people query. -/
def peopleKey : QueryKey := ["people"]

/-- A `useMutation` definition: the cache-relevant callbacks. `V` is the
variables type, `C` the context returned by `onMutate` and consumed by
`onError`. Callbacks a component does not declare are the identity. -/
structure MutationDef (V C : Type) where
  onMutate : V → Cache → Cache × C
  onError : V → C → Cache → Cache
  onSuccess : V → Cache → Cache
  onSettled : V → Cache → Cache

/-- Result of running one mutation: `dispatched` is the cache immediately
after the mutation is invoked (the `onMutate` phase has run, the network
response has not resolved); `surfaced` is the cache at the moment the
outcome (success or error) is handed to the caller, after the relevant
callbacks; `succeeded` records the network outcome. -/
structure MutationRun where
  dispatched : Cache
  surfaced : Cache
  succeeded : Bool
deriving Repr

/-- The TanStack Query mutation lifecycle: `onMutate` runs first; on a
successful response `onSuccess` then `onSettled` run before the result is
surfaced; on a failed response `onError` then `onSettled` run before the
error is surfaced. -/
def runMutation {V C : Type} (d : MutationDef V C) (v : V) (ok : Bool)
    (c0 : Cache) : MutationRun :=
  let p := d.onMutate v c0
  if ok then
    { dispatched := p.1
      surfaced := d.onSettled v (d.onSuccess v p.1)
      succeeded := true }
  else
    { dispatched := p.1
      surfaced := d.onSettled v (d.onError v p.2 p.1)
      succeeded := false }

/-- The movies list a cache currently holds under `[ "movies" ]` (what the
list view renders), empty when no movies entry is cached. -/
def cachedMovies (c : Cache) : List Movie :=
  match getQueryData moviesKey c with
  | some (CacheData.moviesData ms) => ms
  | _ => []

/-- The form data the MovieForm component manages
(`src/components/MovieForm.tsx`): title, optional released year, optional
tagline. -/
structure MovieFormData where
  title : String
  released : Option Int
  tagline : Option String
deriving Repr, DecidableEq

/-- `deleteMovieMutation` from the MovieList component: no optimistic
callbacks, only `onSuccess` invalidating `[ "movies" ]`. Variables: the
movie title. -/
def deleteMovieMutation : MutationDef String Unit where
  onMutate := fun _ c => (c, ())
  onError := fun _ _ c => c
  onSuccess := fun _ c => invalidateQueries moviesKey c
  onSettled := fun _ c => c

/-- `createMovieMutation` from the MovieForm component: `onSuccess`
invalidates `[ "movies" ]`; no other cache callbacks. -/
def createMovieMutation : MutationDef MovieFormData Unit where
  onMutate := fun _ c => (c, ())
  onError := fun _ _ c => c
  onSuccess := fun _ c => invalidateQueries moviesKey c
  onSettled := fun _ c => c

/-- `updateMovieMutation` from the MovieForm component: `onSuccess`
invalidates `[ "movies" ]`; no other cache callbacks. -/
def updateMovieMutation : MutationDef MovieFormData Unit where
  onMutate := fun _ c => (c, ())
  onError := fun _ _ c => c
  onSuccess := fun _ c => invalidateQueries moviesKey c
  onSettled := fun _ c => c

/-- `assignActorMutation` from the RelationshipManager component.
Variables: movie title and actor name. `onSuccess` invalidates
`[ "movies" ]`. -/
def assignActorMutation : MutationDef (String × String) Unit where
  onMutate := fun _ c => (c, ())
  onError := fun _ _ c => c
  onSuccess := fun _ c => invalidateQueries moviesKey c
  onSettled := fun _ c => c

/-- `removeActorMutation` from the RelationshipManager component. -/
def removeActorMutation : MutationDef (String × String) Unit where
  onMutate := fun _ c => (c, ())
  onError := fun _ _ c => c
  onSuccess := fun _ c => invalidateQueries moviesKey c
  onSettled := fun _ c => c

/-- `assignDirectorMutation` from the RelationshipManager component. -/
def assignDirectorMutation : MutationDef (String × String) Unit where
  onMutate := fun _ c => (c, ())
  onError := fun _ _ c => c
  onSuccess := fun _ c => invalidateQueries moviesKey c
  onSettled := fun _ c => c

/-- `removeDirectorMutation` from the RelationshipManager component. -/
def removeDirectorMutation : MutationDef (String × String) Unit where
  onMutate := fun _ c => (c, ())
  onError := fun _ _ c => c
  onSuccess := fun _ c => invalidateQueries moviesKey c
  onSettled := fun _ c => c

/-- The synthetic patch of the optimistic delete pattern from the
best-practices document: `old.movies.filter(m => m.title !== title)`. -/
def deleteOptimisticPatch (title : String) : CacheData → CacheData
  | CacheData.moviesData ms =>
      CacheData.moviesData (ms.filter (fun m => !(m.title = title)))
  | d => d

/-- The optimistic `deleteMovieMutation` pattern from the best-practices
document (the only mutation in the repository implementing the
optimistic-update protocol): `onMutate` cancels reads for `[ "movies" ]`,
snapshots `previousMovies = getQueryData([ "movies" ])`, applies the
synthetic filter patch and returns the snapshot as context; `onError`
writes the snapshot back via `setQueryData` (a no-op when the snapshot was
absent, matching `context?.previousMovies`); `onSettled` invalidates
`[ "movies" ]`. -/
def optimisticDeleteMovieMutation : MutationDef String (Option CacheData) where
  onMutate := fun title c =>
    let c1 := cancelQueries moviesKey c
    let prev := getQueryData moviesKey c1
    (setQueryDataFn moviesKey (deleteOptimisticPatch title) c1, prev)
  onError := fun _ prev c =>
    match prev with
    | some d => setQueryData moviesKey d c
    | none => c
  onSuccess := fun _ c => c
  onSettled := fun _ c => invalidateQueries moviesKey c

/-- The synthetic patch of `useOptimisticMovieUpdate` from the
advanced-examples document: `old.movies.map(movie => movie.title ===
newMovie.title ? \x7b ...movie, ...newMovie \x7d : movie)`. The spread merge
keeps the title (it matches already), overwrites the tagline with the
form value, and overwrites the released year with the form value when the
form supplies one. -/
def movieUpdatePatch (fd : MovieFormData) : CacheData → CacheData
  | CacheData.moviesData ms =>
      CacheData.moviesData (ms.map (fun m =>
        if m.title = fd.title
        then { m with released := fd.released.getD m.released
                      tagline := fd.tagline }
        else m))
  | d => d

/-- `useOptimisticMovieUpdate` from the advanced-examples document: the
second mutation in the repository run under the optimistic-update
protocol, wrapping UPDATE_MOVIE: `onMutate` cancels reads for
`[ "movies" ]`, snapshots `previousMovies = getQueryData([ "movies" ])`,
applies the merge patch and returns the snapshot as context; `onError`
writes the snapshot back via `setQueryData`; `onSettled` invalidates
`[ "movies" ]`. -/
def useOptimisticMovieUpdate :
    MutationDef MovieFormData (Option CacheData) where
  onMutate := fun fd c =>
    let c1 := cancelQueries moviesKey c
    let prev := getQueryData moviesKey c1
    (setQueryDataFn moviesKey (movieUpdatePatch fd) c1, prev)
  onError := fun _ prev c =>
    match prev with
    | some d => setQueryData moviesKey d c
    | none => c
  onSuccess := fun _ c => c
  onSettled := fun _ c => invalidateQueries moviesKey c

/-- The four views of the Application Shell (`src/App.tsx`). -/
inductive View where
  | list
  | create
  | edit
  | manage
deriving Repr, DecidableEq

/-- Application Shell state: the current view plus the `selectedMovie`
React state of `AppContent`. -/
structure AppState where
  view : View
  selectedMovie : Option Movie
deriving Repr, DecidableEq

/-- The user events `AppContent` handles: the two header navigation
buttons (which only call `setView`), the `handleEdit` and `handleManage`
callbacks (which set the selection and the view), and `handleComplete`
(which returns to the list and clears the selection). -/
inductive AppEvent where
  | navMovies
  | navAddMovie
  | editMovie (m : Movie)
  | manageMovie (m : Movie)
  | complete
deriving Repr

/-- State transition of `AppContent`, exactly as the handlers are written:
the navigation buttons call `setView` only and leave `selectedMovie`
untouched. -/
def appStep (s : AppState) : AppEvent → AppState
  | AppEvent.navMovies => { s with view := View.list }
  | AppEvent.navAddMovie => { s with view := View.create }
  | AppEvent.editMovie m => { view := View.edit, selectedMovie := some m }
  | AppEvent.manageMovie m => { view := View.manage, selectedMovie := some m }
  | AppEvent.complete => { view := View.list, selectedMovie := none }

/-- Initial shell state: `useState` starts at view `list` with no
selection. -/
def appInit : AppState := { view := View.list, selectedMovie := none }

/-- The shell state reached after a sequence of user events. -/
def appRun (events : List AppEvent) : AppState :=
  events.foldl appStep appInit

/-- The invariant the claim asserts of every reachable shell state: the
selection is defined exactly when the view is edit or manage. -/
def selectionExact (s : AppState) : Prop :=
  s.selectedMovie.isSome = true ↔ (s.view = View.edit ∨ s.view = View.manage)

instance (s : AppState) : Decidable (selectionExact s) := by
  unfold selectionExact
  infer_instance

/-- The error classes of the error-handling design (transport failure,
authentication failure, schema or validation error). -/
inductive ErrorKind where
  | transport
  | authFailure
  | schemaError
deriving Repr, DecidableEq

/-- The retry limit configured on the query client in `src/App.tsx`:
`defaultOptions.queries.retry: 1`. -/
def queryRetryLimit : Nat := 1

/-- The retry predicate TanStack Query derives from a numeric `retry`
option: retry while the failure count is below the limit, regardless of
the error. The App configuration inspects no error property. -/
def shouldRetry (failureCount : Nat) (_e : ErrorKind) : Bool :=
  failureCount < queryRetryLimit

/-- Whitespace as the JavaScript `trim()` removes it (the common
whitespace characters suffice for this client). -/
def isJsWhitespace (c : Char) : Bool :=
  c = ' ' || c = '\t' || c = '\n' || c = '\r'

/-- Executable embedding of the JavaScript `String.prototype.trim`:
strips leading and trailing whitespace. -/
def strTrim (s : String) : String :=
  ⟨((s.data.dropWhile isJsWhitespace).reverse.dropWhile
      isJsWhitespace).reverse⟩

/-- State of the Search component (`src/components/Search.tsx`): the typed
`searchTerm` and the committed `activeSearch` that keys the query. -/
structure SearchState where
  searchTerm : String
  activeSearch : String
deriving Repr, DecidableEq

/-- Search component events: a keystroke updating the typed term (the
input `onChange`), and submitting the form (`handleSearch`). -/
inductive SearchEvent where
  | typeTerm (s : String)
  | submitForm
deriving Repr

/-- One Search component step: returns the next state and the search term
of the network fetch the step triggers, if any. A keystroke only calls
`setSearchTerm`. Submitting calls `setActiveSearch(searchTerm)` when
`searchTerm.trim()` is nonempty; the query is keyed `[ "search",
activeSearch ]` with `enabled: activeSearch.length > 0`, so a fetch (with
the committed term) fires exactly when the committed term changes to a new
nonempty value. -/
def searchStep (st : SearchState) : SearchEvent → SearchState × Option String
  | SearchEvent.typeTerm s => ({ st with searchTerm := s }, none)
  | SearchEvent.submitForm =>
      if strTrim st.searchTerm = "" then (st, none)
      else
        ({ st with activeSearch := st.searchTerm },
          if st.searchTerm = st.activeSearch then none else some st.searchTerm)

/-- Substring test on character lists: the needle occurs inside the
haystack. -/
def charsContains (needle : List Char) : List Char → Bool
  | [] => needle.isEmpty
  | c :: rest => List.isPrefixOf needle (c :: rest) || charsContains needle rest

/-- `s` contains `term` as a substring (the `\x7b contains: \x7d` string
operator, read literally over the character sequences). -/
def strContains (s term : String) : Bool :=
  charsContains term.data s.data

/-- The `where` clause of the SEARCH_ALL document
(`src/graphql/operations.ts`): an OR of `title: \x7b contains: $searchTerm \x7d`
and `tagline: \x7b contains: $searchTerm \x7d` (an absent tagline matches
nothing beyond the empty needle). -/
def searchFilter (term : String) (m : Movie) : Bool :=
  strContains m.title term || strContains (m.tagline.getD "") term

/-- Comparison by release year, the order the SEARCH_ALL document requests
with `sort: \x7b released: ASC \x7d`. -/
def movieLE (a b : Movie) : Prop := a.released ≤ b.released

instance : DecidableRel movieLE := fun a b =>
  inferInstanceAs (Decidable (a.released ≤ b.released))

instance : IsTotal Movie movieLE :=
  ⟨fun a b => Int.le_total a.released b.released⟩

instance : IsTrans Movie movieLE :=
  ⟨fun _ _ _ hab hbc => le_trans hab hbc⟩

/-- Denotation of the SEARCH_ALL document over a movie store: keep the
movies matching the `where` clause and return them sorted ascending by
`released`, as the `sort` argument requests. -/
def searchAll (term : String) (db : List Movie) : List Movie :=
  List.insertionSort movieLE (db.filter (searchFilter term))

/-- Denotation of the UPDATE_MOVIE document over a movie store:
`updateMovies(where: \x7b title: \x7b eq: $title \x7d \x7d, update: \x7b tagline: \x7b set:
$tagline \x7d, released: \x7b set: $released \x7d \x7d)` writes the released and
tagline fields of the movies whose title equals the lookup title, and
touches nothing else. -/
def updateMovies (t : String) (rel : Int) (tag : Option String)
    (db : List Movie) : List Movie :=
  db.map (fun m =>
    if m.title = t then { m with released := rel, tagline := tag } else m)

/-- The `disabled=\x7b!!movie\x7d` attribute of the title input in the MovieForm
component: the field is disabled exactly when an existing movie is being
edited. -/
def titleInputDisabled (movie : Option Movie) : Bool :=
  movie.isSome

/-- Initial MovieForm state: empty fields, then the `useEffect` populates
them from the movie prop when one is present. -/
def movieFormInit (movie : Option Movie) : MovieFormData :=
  match movie with
  | some m => { title := m.title, released := some m.released, tagline := m.tagline }
  | none => { title := "", released := none, tagline := some "" }

/-- MovieForm input events: the three `onChange` handlers. -/
inductive FormEvent where
  | changeTitle (s : String)
  | changeReleased (n : Option Int)
  | changeTagline (s : String)
deriving Repr

/-- One MovieForm input step. A disabled input fires no `onChange`, so a
title keystroke leaves the state unchanged whenever the title input is
disabled. -/
def movieFormStep (movie : Option Movie) (fd : MovieFormData) :
    FormEvent → MovieFormData
  | FormEvent.changeTitle s =>
      if titleInputDisabled movie then fd else { fd with title := s }
  | FormEvent.changeReleased n => { fd with released := n }
  | FormEvent.changeTagline s => { fd with tagline := some s }

/-- The MovieForm state after a sequence of input events. -/
def movieFormRun (movie : Option Movie) (events : List FormEvent) :
    MovieFormData :=
  events.foldl (movieFormStep movie) (movieFormInit movie)

/-- Concrete fixture movie, from the literal scenario of the spec. -/
def arrival : Movie :=
  { title := "Arrival", released := 2016, tagline := some "Why are they here"
    peopleActedIn := [], peopleDirected := [] }

/-- A second fixture movie. -/
def matrixMovie : Movie :=
  { title := "The Matrix", released := 1999, tagline := some "Welcome to the Real World"
    peopleActedIn := [], peopleDirected := [] }

/-- Concrete fixture cache: a fresh movies entry holding the two fixture
movies, plus people and search entries. -/
def cacheFixture : Cache :=
  [ (moviesKey, { data := CacheData.moviesData [arrival, matrixMovie], invalidated := false })
  , (peopleKey, { data := CacheData.peopleData [{ name := "Amy Adams", born := some 1974 }], invalidated := false })
  , (searchKey "mat", { data := CacheData.moviesData [matrixMovie], invalidated := false }) ]

/-- A mutation leaves every cache entry whose key does not extend
`[ "movies" ]` untouched (data and staleness mark alike), on success and
on failure. -/
def invalidatesOnlyMovies {V C : Type} (d : MutationDef V C) : Prop :=
  ∀ (v : V) (ok : Bool) (c : Cache) (k : QueryKey),
    List.isPrefixOf moviesKey k = false →
    lookupEntry (runMutation d v ok c).surfaced k = lookupEntry c k

theorem lookup_invalidateQueries (fk k : QueryKey) (c : Cache) :
    lookupEntry (invalidateQueries fk c) k
      = (lookupEntry c k).map
          (fun e => if List.isPrefixOf fk k
            then { data := e.data, invalidated := true } else e) := by
  induction c with
  | nil => rfl
  | cons hd tl ih =>
    by_cases h1 : hd.1 = k
    · subst h1
      by_cases h2 : List.isPrefixOf fk hd.1
      · simp [invalidateQueries, lookupEntry, h2]
      · simp [invalidateQueries, lookupEntry, h2]
    · by_cases h2 : List.isPrefixOf fk hd.1
      · simp [invalidateQueries, lookupEntry, h1, h2, ih]
      · simp [invalidateQueries, lookupEntry, h1, h2, ih]

theorem lookup_invalidateQueries_other (fk k : QueryKey) (c : Cache)
    (h : List.isPrefixOf fk k = false) :
    lookupEntry (invalidateQueries fk c) k = lookupEntry c k := by
  rw [lookup_invalidateQueries]
  cases lookupEntry c k <;> simp [h]

theorem getQueryData_invalidateQueries (fk k : QueryKey) (c : Cache) :
    getQueryData k (invalidateQueries fk c) = getQueryData k c := by
  unfold getQueryData
  rw [lookup_invalidateQueries]
  cases lookupEntry c k with
  | none => rfl
  | some a =>
    by_cases h : List.isPrefixOf fk k <;> simp [h]

theorem getQueryData_setQueryData_self (k : QueryKey) (d : CacheData)
    (c : Cache) : getQueryData k (setQueryData k d c) = some d := by
  induction c with
  | nil => simp [setQueryData, getQueryData, lookupEntry]
  | cons hd tl ih =>
    by_cases h1 : hd.1 = k
    · simp [setQueryData, getQueryData, lookupEntry, h1]
    · simp [setQueryData, getQueryData, lookupEntry, h1] at ih ⊢
      exact ih

theorem getQueryData_setQueryDataFn_self (k : QueryKey)
    (f : CacheData → CacheData) (c : Cache) :
    getQueryData k (setQueryDataFn k f c) = (getQueryData k c).map f := by
  induction c with
  | nil => rfl
  | cons hd tl ih =>
    by_cases h1 : hd.1 = k
    · simp [setQueryDataFn, getQueryData, lookupEntry, h1]
    · simp [setQueryDataFn, getQueryData, lookupEntry, h1] at ih ⊢
      exact ih

theorem plainRun_surfaced {V : Type} (d : MutationDef V Unit)
    (hm : d.onMutate = fun _ c => (c, ()))
    (he : d.onError = fun _ _ c => c)
    (hs : d.onSuccess = fun _ c => invalidateQueries moviesKey c)
    (ht : d.onSettled = fun _ c => c) (v : V) (ok : Bool) (c : Cache) :
    (runMutation d v ok c).surfaced
      = if ok then invalidateQueries moviesKey c else c := by
  cases ok <;> simp [runMutation, hm, he, hs, ht]

theorem plainRun_invalidatesOnlyMovies {V : Type} (d : MutationDef V Unit)
    (hm : d.onMutate = fun _ c => (c, ()))
    (he : d.onError = fun _ _ c => c)
    (hs : d.onSuccess = fun _ c => invalidateQueries moviesKey c)
    (ht : d.onSettled = fun _ c => c) :
    invalidatesOnlyMovies d := by
  intro v ok c k h
  rw [plainRun_surfaced d hm he hs ht]
  cases ok with
  | false => rfl
  | true => simpa using lookup_invalidateQueries_other moviesKey k c h

theorem optimisticRun_rollback {V : Type}
    (d : MutationDef V (Option CacheData))
    (patch : V → CacheData → CacheData)
    (hm : d.onMutate = fun v c =>
      (setQueryDataFn moviesKey (patch v) (cancelQueries moviesKey c),
       getQueryData moviesKey (cancelQueries moviesKey c)))
    (he : d.onError = fun _ prev c =>
      match prev with
      | some dd => setQueryData moviesKey dd c
      | none => c)
    (ht : d.onSettled = fun _ c => invalidateQueries moviesKey c)
    (v : V) (c : Cache) (e : CacheEntry)
    (h : lookupEntry c moviesKey = some e) :
    getQueryData moviesKey (runMutation d v false c).surfaced = some e.data
    ∧ (runMutation d v false c).succeeded = false := by
  constructor
  · have hs : (runMutation d v false c).surfaced
        = invalidateQueries moviesKey
            (setQueryData moviesKey e.data
              (setQueryDataFn moviesKey (patch v) c)) := by
      simp [runMutation, hm, he, ht, cancelQueries, getQueryData, h]
    rw [hs, getQueryData_invalidateQueries, getQueryData_setQueryData_self]
  · rfl

theorem appStep_selection_defined (s : AppState) (e : AppEvent) :
    ((appStep s e).view = View.edit ∨ (appStep s e).view = View.manage) →
    ((appStep s e).selectedMovie).isSome = true := by
  cases e <;> simp [appStep]

theorem appFold_selection_defined (events : List AppEvent) (s : AppState)
    (h : (s.view = View.edit ∨ s.view = View.manage) →
      s.selectedMovie.isSome = true) :
    ((List.foldl appStep s events).view = View.edit
        ∨ (List.foldl appStep s events).view = View.manage) →
    (List.foldl appStep s events).selectedMovie.isSome = true := by
  induction events generalizing s with
  | nil => exact h
  | cons e es ih => exact ih (appStep s e) (appStep_selection_defined s e)

/-- C4 counterexample: starting from the list view, the user picks the
fixture movie for editing (selection set, view edit) and then presses the
Add Movie navigation button, which only calls `setView` and leaves the
selection in place. The reached state has view `create` with a defined
selection, so the claimed invariant "selection defined exactly when the
view is edit or manage" fails on a reachable state. -/
theorem create_view_keeps_selection_counterexample :
    ¬ selectionExact
        (appRun [AppEvent.editMovie arrival, AppEvent.navAddMovie]) := by
  decide

/-- C4 (amended): in the Application Shell, `handleEdit` and `handleManage`
set the selection together with the view and `handleComplete` clears it,
but the navigation transitions into list and create leave the selection
unchanged; the invariant that every reachable state satisfies is the
one-directional guarantee that whenever the view is edit or manage the
selection is defined. -/
theorem appRun_selection_defined_when_required (events : List AppEvent) :
    ((appRun events).view = View.edit ∨ (appRun events).view = View.manage) →
    ((appRun events).selectedMovie).isSome = true :=
  appFold_selection_defined events appInit (by decide)

/-- C4 witness: after the user picks the fixture movie for editing, the
reached state is in the edit view and its selection is defined. -/
theorem appRun_selection_defined_witness :
    ((appRun [AppEvent.editMovie arrival]).selectedMovie).isSome = true :=
  appRun_selection_defined_when_required [AppEvent.editMovie arrival]
    (by decide)

/-- C5 counterexample: with the query client configuration of `App.tsx`
(`retry: 1`), a request that has just failed with an authentication
failure (failure count 0) is retried, contradicting the claim that
authentication failures are never retried automatically. -/
theorem auth_failure_retried_counterexample :
    shouldRetry 0 ErrorKind.authFailure = true := by decide

/-- C5 (amended): the query client retries every failed query exactly once
regardless of its error class — an authentication failure is retried once
exactly like any other failure — and after that single retry no further
automatic attempt is made. -/
theorem shouldRetry_uniform_once (n : Nat) (e e2 : ErrorKind) :
    shouldRetry n e = shouldRetry n e2
    ∧ shouldRetry 0 e = true
    ∧ (∀ m, 1 ≤ m → shouldRetry m e = false) := by
  refine ⟨rfl, rfl, ?_⟩
  intro m hm
  simp only [shouldRetry, queryRetryLimit, decide_eq_false_iff_not]
  omega

/-- C5 witness: at failure count 2 an authentication failure is not
retried any further. -/
theorem shouldRetry_uniform_once_witness :
    shouldRetry 2 ErrorKind.authFailure = false :=
  (shouldRetry_uniform_once 2 ErrorKind.authFailure ErrorKind.transport).2.2
    2 (by decide)

/-- C10: the denotation of the SEARCH_ALL document returns the matching
movies ordered ascending by release year, as its `sort: released ASC`
argument requests. -/
theorem searchAll_sorted_by_released (term : String) (db : List Movie) :
    List.Sorted movieLE (searchAll term db) :=
  List.sorted_insertionSort movieLE (db.filter (searchFilter term))

/-- C1: for both mutations run under the optimistic-update protocol in
the repository — the optimistic delete pattern of the best-practices
document and `useOptimisticMovieUpdate` of the advanced-examples
document — if the network call fails, the cached value under
`[ "movies" ]` at the moment the error is surfaced to the caller is the
snapshot taken before the optimistic patch, verbatim: `onError` writes
the whole snapshot back and runs, together with `onSettled`, before the
error reaches the caller. -/
theorem optimisticMutations_rollback_before_surface (c : Cache)
    (title : String) (fd : MovieFormData) (e : CacheEntry)
    (h : lookupEntry c moviesKey = some e) :
    (getQueryData moviesKey
        (runMutation optimisticDeleteMovieMutation title false c).surfaced
      = some e.data
      ∧ (runMutation optimisticDeleteMovieMutation title false c).succeeded
        = false)
    ∧ (getQueryData moviesKey
        (runMutation useOptimisticMovieUpdate fd false c).surfaced
      = some e.data
      ∧ (runMutation useOptimisticMovieUpdate fd false c).succeeded
        = false) :=
  ⟨optimisticRun_rollback optimisticDeleteMovieMutation
      deleteOptimisticPatch rfl rfl rfl title c e h,
   optimisticRun_rollback useOptimisticMovieUpdate
      movieUpdatePatch rfl rfl rfl fd c e h⟩

/-- C1 witness: on the concrete fixture cache, a failed optimistic delete
and a failed optimistic update of the fixture movie each surface their
error with the movies entry restored to the exact pre-mutation value. -/
theorem optimisticMutations_rollback_witness :
    getQueryData moviesKey
        (runMutation optimisticDeleteMovieMutation "Arrival" false
          cacheFixture).surfaced
      = some (CacheData.moviesData [arrival, matrixMovie])
    ∧ getQueryData moviesKey
        (runMutation useOptimisticMovieUpdate
          { title := "Arrival", released := some 2017, tagline := some "x" }
          false cacheFixture).surfaced
      = some (CacheData.moviesData [arrival, matrixMovie]) :=
  have h := optimisticMutations_rollback_before_surface cacheFixture
    "Arrival"
    { title := "Arrival", released := some 2017, tagline := some "x" }
    { data := CacheData.moviesData [arrival, matrixMovie], invalidated := false }
    (by decide)
  ⟨h.1.1, h.2.1⟩

/-- C2 counterexample: a failed run of the MovieList delete mutation (the
component declares only `onSuccess`) leaves the cache exactly as it was:
the affected `[ "movies" ]` entry is not invalidated on failure, so the
claim that the key is invalidated on completion whether the mutation
succeeds or fails is false. -/
theorem delete_failure_no_invalidation_counterexample :
    (runMutation deleteMovieMutation "Arrival" false cacheFixture).surfaced
      = cacheFixture
    ∧ ¬ ((lookupEntry (runMutation deleteMovieMutation "Arrival" false
          cacheFixture).surfaced moviesKey).map CacheEntry.invalidated
        = some true) := by
  decide

/-- C2 (amended): every mutation of the client — create movie, update
movie, delete movie, assign and remove actor, assign and remove
director — invalidates the affected `[ "movies" ]` key when the mutation
succeeds (the entry under it is marked invalidated, so the next read
refetches), but when the mutation fails it leaves the cache untouched;
completion-time invalidation on both outcomes exists only in the
optimistic best-practices pattern. -/
theorem mutations_invalidate_on_success_only (t : String) (d : MovieFormData)
    (p : String × String) (c : Cache) :
    (∀ e, lookupEntry c moviesKey = some e →
        lookupEntry (runMutation deleteMovieMutation t true c).surfaced
            moviesKey
          = some { data := e.data, invalidated := true })
    ∧ (runMutation deleteMovieMutation t true c).surfaced
      = invalidateQueries moviesKey c
    ∧ (runMutation deleteMovieMutation t false c).surfaced = c
    ∧ (runMutation createMovieMutation d true c).surfaced
      = invalidateQueries moviesKey c
    ∧ (runMutation createMovieMutation d false c).surfaced = c
    ∧ (runMutation updateMovieMutation d true c).surfaced
      = invalidateQueries moviesKey c
    ∧ (runMutation updateMovieMutation d false c).surfaced = c
    ∧ (runMutation assignActorMutation p true c).surfaced
      = invalidateQueries moviesKey c
    ∧ (runMutation assignActorMutation p false c).surfaced = c
    ∧ (runMutation removeActorMutation p true c).surfaced
      = invalidateQueries moviesKey c
    ∧ (runMutation removeActorMutation p false c).surfaced = c
    ∧ (runMutation assignDirectorMutation p true c).surfaced
      = invalidateQueries moviesKey c
    ∧ (runMutation assignDirectorMutation p false c).surfaced = c
    ∧ (runMutation removeDirectorMutation p true c).surfaced
      = invalidateQueries moviesKey c
    ∧ (runMutation removeDirectorMutation p false c).surfaced = c := by
  refine ⟨?_, rfl, rfl, rfl, rfl, rfl, rfl, rfl, rfl, rfl, rfl, rfl, rfl,
    rfl, rfl⟩
  intro e he
  have h1 : (runMutation deleteMovieMutation t true c).surfaced
      = invalidateQueries moviesKey c := rfl
  rw [h1, lookup_invalidateQueries, he]
  simp [moviesKey]

/-- C2 witness: on the fixture cache, a successful delete marks the movies
entry invalidated. -/
theorem mutations_invalidate_on_success_only_witness :
    lookupEntry (runMutation deleteMovieMutation "Arrival" true
        cacheFixture).surfaced moviesKey
      = some { data := CacheData.moviesData [arrival, matrixMovie]
               invalidated := true } :=
  (mutations_invalidate_on_success_only "Arrival"
      { title := "Arrival", released := some 2016, tagline := none }
      ("Arrival", "Amy Adams") cacheFixture).1
    { data := CacheData.moviesData [arrival, matrixMovie], invalidated := false }
    (by decide)

/-- C3 counterexample: the delete of the MovieList component declares no
`onMutate`, so immediately after the delete of the fixture movie is
invoked — before the network response resolves — the movie is still
present in the cached list the list view renders, contradicting the
claimed optimistic absence. -/
theorem delete_not_optimistic_counterexample :
    arrival ∈ cachedMovies
      (runMutation deleteMovieMutation "Arrival" true cacheFixture).dispatched := by
  decide

/-- C3 (amended): the MovieList delete applies no optimistic patch — the
movie stays in the cached list until the success-path invalidation causes
a refetch; only under the optimistic delete pattern of the best-practices
document is the movie already absent from the cached list immediately
after the delete is invoked and before the network response resolves. -/
theorem optimisticDelete_dispatch_absent (c : Cache) (title : String)
    (ms : List Movie)
    (h : getQueryData moviesKey c = some (CacheData.moviesData ms)) :
    ∀ m ∈ cachedMovies
        (runMutation optimisticDeleteMovieMutation title false c).dispatched,
      ¬ m.title = title := by
  intro m hm
  have hd : (runMutation optimisticDeleteMovieMutation title false c).dispatched
      = setQueryDataFn moviesKey (deleteOptimisticPatch title) c := by
    simp [runMutation, optimisticDeleteMovieMutation, cancelQueries]
  rw [hd] at hm
  have hq := getQueryData_setQueryDataFn_self moviesKey
    (deleteOptimisticPatch title) c
  rw [h] at hq
  unfold cachedMovies at hm
  rw [hq] at hm
  simp [deleteOptimisticPatch] at hm
  exact hm.2

/-- C3 witness: on the fixture cache, immediately after invoking the
optimistic delete of the fixture movie, the other movie is still in the
cached list and does not bear the deleted title. -/
theorem optimisticDelete_dispatch_absent_witness :
    matrixMovie ∈ cachedMovies
        (runMutation optimisticDeleteMovieMutation "Arrival" false
          cacheFixture).dispatched
    ∧ ¬ matrixMovie.title = "Arrival" :=
  ⟨by decide,
   optimisticDelete_dispatch_absent cacheFixture "Arrival"
     [arrival, matrixMovie] (by decide) matrixMovie (by decide)⟩

/-- C7: the client never changes a title after creation. The UPDATE_MOVIE
denotation preserves every title and every relationship list, writes only
the released and tagline fields of the movies matching the lookup title,
and leaves non-matching movies untouched; and in the edit form the title
input is disabled whenever an existing movie is being edited, so no
sequence of form events can change the form title away from the edited
movie's title. -/
theorem update_never_changes_title (t : String) (rel : Int)
    (tag : Option String) (db : List Movie) (m : Movie)
    (events : List FormEvent) :
    (updateMovies t rel tag db).map Movie.title = db.map Movie.title
    ∧ (updateMovies t rel tag db).map Movie.peopleActedIn
      = db.map Movie.peopleActedIn
    ∧ (updateMovies t rel tag db).map Movie.peopleDirected
      = db.map Movie.peopleDirected
    ∧ (∀ x ∈ db, ¬ x.title = t → x ∈ updateMovies t rel tag db)
    ∧ titleInputDisabled (some m) = true
    ∧ (movieFormRun (some m) events).title = m.title := by
  refine ⟨?_, ?_, ?_, ?_, rfl, ?_⟩
  · unfold updateMovies
    rw [List.map_map]
    refine List.map_congr_left ?_
    intro a _
    by_cases h : a.title = t <;> simp [h]
  · unfold updateMovies
    rw [List.map_map]
    refine List.map_congr_left ?_
    intro a _
    by_cases h : a.title = t <;> simp [h]
  · unfold updateMovies
    rw [List.map_map]
    refine List.map_congr_left ?_
    intro a _
    by_cases h : a.title = t <;> simp [h]
  · intro x hx hxt
    unfold updateMovies
    have : (fun m => if m.title = t
        then { m with released := rel, tagline := tag } else m) x = x := by
      simp [hxt]
    exact this ▸ List.mem_map_of_mem _ hx
  · have hf : ∀ (fd : MovieFormData) (es : List FormEvent),
        (es.foldl (movieFormStep (some m)) fd).title = fd.title := by
      intro fd es
      induction es generalizing fd with
      | nil => rfl
      | cons e es ih =>
        rw [List.foldl_cons, ih]
        cases e <;> simp [movieFormStep, titleInputDisabled]
    exact hf (movieFormInit (some m)) events

/-- C7 witness: on a concrete store, updating the fixture movie preserves
all titles, leaves the other movie untouched, and a concrete edit session
on the fixture movie cannot change the form title. -/
theorem update_never_changes_title_witness :
    (updateMovies "Arrival" 2017 (some "new tagline")
        [arrival, matrixMovie]).map Movie.title
      = [arrival, matrixMovie].map Movie.title
    ∧ matrixMovie ∈ updateMovies "Arrival" 2017 (some "new tagline")
        [arrival, matrixMovie]
    ∧ (movieFormRun (some arrival)
        [FormEvent.changeTitle "Renamed",
         FormEvent.changeTagline "x"]).title = arrival.title := by
  have h := update_never_changes_title "Arrival" 2017 (some "new tagline")
    [arrival, matrixMovie] arrival
    [FormEvent.changeTitle "Renamed", FormEvent.changeTagline "x"]
  exact ⟨h.1, h.2.2.2.1 matrixMovie (by decide) (by decide), h.2.2.2.2.2⟩

/-- C8: a keystroke changing the typed search term triggers no search
fetch and does not change the committed term; a fetch is emitted only on
form submission with a nonempty (after trimming) typed term, and the term
it fetches with is exactly the newly committed term. -/
theorem search_fetch_only_on_commit (st : SearchState) (s : String) :
    (searchStep st (SearchEvent.typeTerm s)).2 = none
    ∧ (searchStep st (SearchEvent.typeTerm s)).1.activeSearch
      = st.activeSearch
    ∧ (∀ t, (searchStep st SearchEvent.submitForm).2 = some t →
        t = st.searchTerm ∧ ¬ strTrim st.searchTerm = ""
          ∧ (searchStep st SearchEvent.submitForm).1.activeSearch = t) := by
  refine ⟨rfl, rfl, ?_⟩
  intro t ht
  by_cases h : strTrim st.searchTerm = ""
  · simp [searchStep, h] at ht
  · by_cases h2 : st.searchTerm = st.activeSearch
    · simp [searchStep, h] at ht
      exact absurd h2 ht.1
    · simp only [searchStep, if_neg h, if_neg h2, Option.some.injEq] at ht
      subst ht
      exact ⟨rfl, h, by simp [searchStep, h, h2]⟩

/-- C8 witness: with typed term mat and no committed term, submitting the
form emits a fetch, and it carries the committed term mat. -/
theorem search_fetch_only_on_commit_witness :
    "mat" = SearchState.searchTerm { searchTerm := "mat", activeSearch := "" }
    ∧ ¬ strTrim (SearchState.searchTerm
        { searchTerm := "mat", activeSearch := "" }) = ""
    ∧ (searchStep { searchTerm := "mat", activeSearch := "" }
        SearchEvent.submitForm).1.activeSearch = "mat" :=
  (search_fetch_only_on_commit
      { searchTerm := "mat", activeSearch := "" } "x").2.2 "mat" (by decide)

/-- C9: every mutation in the client — create movie, update movie, delete
movie, assign and remove actor, assign and remove director — touches no
cache entry outside the `[ "movies" ]` key family on either outcome, and
the `[ "search", term ]` and `[ "people" ]` keys are outside that family,
so committed search results and the people list stay as they are until
their own queries rerun. -/
theorem app_mutations_invalidate_only_movies :
    invalidatesOnlyMovies createMovieMutation
    ∧ invalidatesOnlyMovies updateMovieMutation
    ∧ invalidatesOnlyMovies deleteMovieMutation
    ∧ invalidatesOnlyMovies assignActorMutation
    ∧ invalidatesOnlyMovies removeActorMutation
    ∧ invalidatesOnlyMovies assignDirectorMutation
    ∧ invalidatesOnlyMovies removeDirectorMutation
    ∧ (∀ term, List.isPrefixOf moviesKey (searchKey term) = false)
    ∧ List.isPrefixOf moviesKey peopleKey = false :=
  ⟨plainRun_invalidatesOnlyMovies _ rfl rfl rfl rfl,
   plainRun_invalidatesOnlyMovies _ rfl rfl rfl rfl,
   plainRun_invalidatesOnlyMovies _ rfl rfl rfl rfl,
   plainRun_invalidatesOnlyMovies _ rfl rfl rfl rfl,
   plainRun_invalidatesOnlyMovies _ rfl rfl rfl rfl,
   plainRun_invalidatesOnlyMovies _ rfl rfl rfl rfl,
   plainRun_invalidatesOnlyMovies _ rfl rfl rfl rfl,
   fun _ => rfl, rfl⟩

/-- C9 witness: on the fixture cache, a successful delete leaves the
people entry and the committed search entry exactly as they were. -/
theorem app_mutations_invalidate_only_movies_witness :
    lookupEntry (runMutation deleteMovieMutation "Arrival" true
        cacheFixture).surfaced peopleKey
      = lookupEntry cacheFixture peopleKey
    ∧ lookupEntry (runMutation deleteMovieMutation "Arrival" true
        cacheFixture).surfaced (searchKey "mat")
      = lookupEntry cacheFixture (searchKey "mat") :=
  ⟨app_mutations_invalidate_only_movies.2.2.1 "Arrival" true cacheFixture
      peopleKey (by decide),
   app_mutations_invalidate_only_movies.2.2.1 "Arrival" true cacheFixture
      (searchKey "mat") (by decide)⟩
